import Mathlib

/-!
Verification of the KPI root-cause dashboard (`sales_what_if_rootcause.py`).

The script is a single linear pipeline over an in-memory table: filter the
rows by a hierarchical selection (DSM / ASE / Territory), aggregate actual
and plan KPI values, derive boolean health flags, walk two fixed decision
trees to produce diagnostic messages, and rank leaderboards over the full
dataset.  Numeric cells are modelled as rationals; a pandas cell that may be
null (the hierarchy keys, which the script runs through `dropna`) is an
`Option String`.  Column presence is part of the dataset, mirroring the
script's `if col in filtered_df` guards.
-/

/-- The numeric columns the script reads. -/
inductive Col where
  | manpowerPlan | manpowerActual | mandaysActual | routesPlan | routesActual
  | callageActual | prodActual | secPlan | secActual | uboPlan | uboActual
  | ulsRetailer | ulsDB | tpActual | tpPlan
deriving DecidableEq, Repr

/-- One row of the dataset: hierarchy keys (nullable) and numeric cells. -/
structure Row where
  dsm : Option String
  ase : Option String
  territory : Option String
  val : Col → Rat

/-- The loaded table: its rows plus which numeric columns the schema has
(`hasCol c = false` models a column absent from the CSV, which the script's
`sum_or_zero` / `in filtered_df` guards turn into 0). -/
structure Dataset where
  rows : List Row
  hasCol : Col → Bool

/-- The sidebar selection: each level is either the literal sentinel string
used by the script ("All DSMs" / "All ASEs" / "All Territories") or a chosen
key. -/
structure Selection where
  dsm : String
  ase : String
  territory : String

/-- Insert into a list keeping elements for which `le` already holds in front. -/
def insertLe (le : String → String → Bool) (x : String) : List String → List String
  | [] => [x]
  | y :: ys => if le x y then x :: y :: ys else y :: insertLe le x ys

/-- Insertion sort with a boolean comparison. -/
def sortLe (le : String → String → Bool) : List String → List String
  | [] => []
  | x :: xs => insertLe le x (sortLe le xs)

/-- Lexicographic string order, via `Ord String`. -/
def strLe (a b : String) : Bool := (compare a b).isLE

/-- `sorted(series.dropna().unique())`: drop nulls, deduplicate, sort. -/
def sortedUnique (l : List (Option String)) : List String :=
  sortLe strLe (l.filterMap id).eraseDups

/-- Source lines 17: the DSM candidate list. -/
def dsm_list (ds : Dataset) : List String :=
  sortedUnique (ds.rows.map (·.dsm))

/-- Source lines 21-25: the ASE candidate list, restricted by the DSM choice
unless it is the "All DSMs" sentinel. -/
def ase_list (ds : Dataset) (selected_dsm : String) : List String :=
  if selected_dsm == "All DSMs" then
    sortedUnique (ds.rows.map (·.ase))
  else
    sortedUnique ((ds.rows.filter (fun r => r.dsm == some selected_dsm)).map (·.ase))

/-- Source lines 29-40: the Territory candidate list.  Note that when a
specific ASE is selected the script filters by
`df['DSM'] == selected_dsm` even when `selected_dsm` is the sentinel
"All DSMs", i.e. it compares the DSM column against the sentinel string. -/
def territory_list (ds : Dataset) (selected_dsm selected_ase : String) : List String :=
  if selected_ase != "All ASEs" then
    sortedUnique ((ds.rows.filter
      (fun r => r.dsm == some selected_dsm && r.ase == some selected_ase)).map (·.territory))
  else if selected_dsm != "All DSMs" then
    sortedUnique ((ds.rows.filter (fun r => r.dsm == some selected_dsm)).map (·.territory))
  else
    sortedUnique (ds.rows.map (·.territory))

/-- Modelled from the spec: the Filter Resolver contract
`candidates(dataset, level, restrictions)` for the Territory level, where
`restrictions` is the conjunction of the already-chosen upper-level keys and
an "all" choice imposes no restriction at its level.  (The spec's contract;
to be compared with `territory_list`, which is what the code does.) -/
def territory_list_spec (ds : Dataset) (selected_dsm selected_ase : String) : List String :=
  let r1 := if selected_dsm != "All DSMs"
    then ds.rows.filter (fun r => r.dsm == some selected_dsm) else ds.rows
  let r2 := if selected_ase != "All ASEs"
    then r1.filter (fun r => r.ase == some selected_ase) else r1
  sortedUnique (r2.map (·.territory))

/-- Source lines 43-52: apply the three filters, skipping each level whose
selection is its "all" sentinel. -/
def filteredRows (ds : Dataset) (sel : Selection) : List Row :=
  let f1 := if sel.dsm != "All DSMs"
    then ds.rows.filter (fun r => r.dsm == some sel.dsm) else ds.rows
  let f2 := if sel.ase != "All ASEs"
    then f1.filter (fun r => r.ase == some sel.ase) else f1
  if sel.territory != "All Territories"
    then f2.filter (fun r => r.territory == some sel.territory) else f2

/-- The actual and plan KPI values computed at source lines 80-106, with the
script's variable names as field names. -/
structure KPIs where
  mp_actual : Rat
  mandays_actual : Rat
  routes_actual : Rat
  callage_actual : Rat
  prod_actual : Rat
  sec_actual : Rat
  ubo_actual : Rat
  uls_retailer : Rat
  uls_db : Rat
  tp_per_outlet : Rat
  lines_per_outlet_actual : Rat
  lines_per_db_actual : Rat
  lines_per_average : Rat
  mp_plan : Rat
  mandays_plan : Rat
  routes_plan : Rat
  callage_plan : Rat
  prod_plan : Rat
  sec_plan : Rat
  uls_db_plan : Rat
  lines_per_outlet_plan : Rat
  lines_per_average_plan : Rat
  tp_per_outlet_plan : Rat
  ubo_plan : Rat

/-- Source lines 77-78: `sum_or_zero(col)`, the column sum over the filtered
rows, or 0 when the schema lacks the column. -/
def sum_or_zero (ds : Dataset) (rows : List Row) (c : Col) : Rat :=
  if ds.hasCol c then (rows.map (fun r => r.val c)).sum else 0

/-- The `.mean()`-or-0 pattern of source lines 89 and 105, with `.mean()`
modelled as sum / row count (the script only reaches it on a nonempty
subset). -/
def mean_or_zero (ds : Dataset) (rows : List Row) (c : Col) : Rat :=
  if ds.hasCol c then (rows.map (fun r => r.val c)).sum / (rows.length : Rat) else 0

/-- Source lines 77-106: the KPI aggregation over the filtered rows. -/
def aggregate (ds : Dataset) (rows : List Row) : KPIs :=
  let soz : Col → Rat := sum_or_zero ds rows
  let mean : Col → Rat := mean_or_zero ds rows
  let mp_actual := soz .manpowerActual
  let mandays_actual := soz .mandaysActual
  let routes_actual := soz .routesActual
  let callage_actual := soz .callageActual
  let prod_actual := soz .prodActual
  let sec_actual := soz .secActual
  let ubo_actual := soz .uboActual
  let uls_retailer := soz .ulsRetailer
  let uls_db := soz .ulsDB
  let tp_per_outlet := mean .tpActual
  let lines_per_outlet_actual := if ubo_actual > 0 then uls_retailer / ubo_actual else 0
  let lines_per_db_actual := if ubo_actual > 0 then uls_db / ubo_actual else 0
  let lines_per_average := (lines_per_outlet_actual + lines_per_db_actual) / 2
  let mp_plan := soz .manpowerPlan
  let mandays_plan := mp_plan * 24
  let routes_plan := soz .routesPlan
  let callage_plan := routes_plan * 40
  let prod_plan := callage_plan * (8/10)
  let sec_plan := soz .secPlan
  let uls_db_plan := if ubo_actual > 0 then lines_per_db_actual else 0
  let lines_per_outlet_plan := uls_db_plan * (8/10)
  let lines_per_average_plan := (lines_per_outlet_plan + uls_db_plan) / 2
  let tp_per_outlet_plan := mean .tpPlan
  let ubo_plan := if ds.hasCol .uboPlan then soz .uboPlan else 0
  { mp_actual, mandays_actual, routes_actual, callage_actual, prod_actual,
    sec_actual, ubo_actual, uls_retailer, uls_db, tp_per_outlet,
    lines_per_outlet_actual, lines_per_db_actual, lines_per_average,
    mp_plan, mandays_plan, routes_plan, callage_plan, prod_plan, sec_plan,
    uls_db_plan, lines_per_outlet_plan, lines_per_average_plan,
    tp_per_outlet_plan, ubo_plan }

/-- Source lines 109-110: `is_good(actual, plan, threshold)`; the script
always calls it with the default threshold 0.9. -/
def is_good (actual plan threshold : Rat) : Bool :=
  if plan != 0 then decide (actual ≥ threshold * plan) else false

/-- The seven boolean health flags of source lines 112-120. -/
structure Flags where
  callage : Bool
  routes : Bool
  productivity : Bool
  lines : Bool
  tp : Bool
  secondary : Bool
  manday : Bool
deriving DecidableEq, Repr

/-- Source lines 112-120: the flag dictionary. -/
def mkFlags (k : KPIs) : Flags where
  callage := is_good k.callage_actual k.callage_plan (9/10)
  routes := is_good k.routes_actual k.routes_plan (9/10)
  productivity := is_good k.prod_actual k.prod_plan (9/10)
  lines := is_good k.lines_per_average k.lines_per_average_plan (9/10)
  tp := is_good k.tp_per_outlet k.tp_per_outlet_plan (9/10)
  secondary := is_good k.sec_actual k.sec_plan (9/10)
  manday := if k.mp_plan > 0 then decide (k.mandays_actual ≥ k.mp_plan * 24) else false

/-- Severity of an emitted message (`st.success` / `st.warning` /
`st.error` / `st.info`). -/
inductive Severity where
  | ok | warning | error | info
deriving DecidableEq, Repr

/-- An emitted diagnostic message. -/
abbrev Msg := Severity × String

/-- Source lines 128-149: Tree A, the dependency-flow (execution-chain)
analysis, as the ordered list of messages it emits. -/
def treeA (f : Flags) : List Msg :=
  if f.callage then
    (Severity.ok, "Unique Callage is OK") ::
    (if f.productivity then
      (Severity.ok, "Productivity is OK") ::
      (if f.secondary then
        [(Severity.ok, "Secondary is OK - Expected Primary to Perform")]
      else
        (Severity.warning, "Productivity is OK but Secondary is lacking.") ::
        (if f.lines then
          [(Severity.info, "Lines per Outlet is OK - Check Product Mix.")]
        else
          [(Severity.error, "Lines per Outlet under Threshold.")]))
    else
      [(Severity.warning, "Callage is OK but Productivity is not.")])
  else
    (Severity.error, "Unique Callage is below Threshold.") ::
    (if f.routes then
      [(Severity.info, "Routes are OK - Issue in Callage.")]
    else if f.manday then
      [(Severity.info, "Mandays fully utilized - May be poor execution.")]
    else
      [(Severity.error, "Check Mandays or Manpower Deployment.")])

/-- Source lines 154-173: Tree B, the value-chain analysis. -/
def treeB (f : Flags) : List Msg :=
  if f.lines then
    (Severity.ok, "Lines per Outlet is OK.") ::
    (if f.tp then
      (Severity.ok, "TP per Outlet is OK.") ::
      (Severity.info, "Few lines with high price or many lines with reasonable price.") ::
      (if f.secondary then
        [(Severity.ok, "Secondary is Good - Primary should follow.")]
      else
        [(Severity.warning, "TP OK but Secondary is weak.")])
    else
      [(Severity.warning, "TP per Outlet is weak."),
       (Severity.info, "They billed many lines but total value is low.")])
  else
    (Severity.error, "Lines per Outlet under Threshold.") ::
    (if f.tp then
      [(Severity.ok, "TP per Outlet is OK."),
       (Severity.info, "Few lines with high price - total is reasonable.")]
    else
      [(Severity.error, "TP per Outlet is weak."),
       (Severity.info, "Few lines and low price - weak selling.")])

/-- The finite/placeholder value of the "% Achieved" column cell: pandas
float division yields a finite quotient when the plan is nonzero, and the
non-crashing placeholders inf / -inf / nan when it is zero (rendered as a
string with "%" appended; rendering is out of scope). -/
inductive Percent where
  | val : Rat → Percent
  | posInf : Percent
  | negInf : Percent
  | nan : Percent
deriving DecidableEq, Repr

/-- Source line 192: `Actual / Plan * 100` for one summary row, with the
float division-by-zero placeholders made explicit. -/
def percentAchieved (actual plan : Rat) : Percent :=
  if plan != 0 then .val (actual / plan * 100)
  else if actual > 0 then .posInf
  else if actual < 0 then .negInf
  else .nan

/-- True on the three division-by-zero placeholders. -/
def Percent.isPlaceholder : Percent → Bool
  | .val _ => false
  | _ => true

/-- Source lines 178-189: the KPI Performance Overview rows, each pairing a
metric name with its (actual, plan) pair. -/
def kpiTable (k : KPIs) : List (String × Rat × Rat) :=
  [("Manpower", k.mp_actual, k.mp_plan),
   ("Mandays", k.mandays_actual, k.mandays_plan),
   ("Unique Routes", k.routes_actual, k.routes_plan),
   ("Unique Callage", k.callage_actual, k.callage_plan),
   ("Productivity", k.prod_actual, k.prod_plan),
   ("UBO", k.ubo_actual, k.ubo_plan),
   ("Lines per Outlet", k.lines_per_average, k.lines_per_average_plan),
   ("Lines per DB", k.lines_per_db_actual, k.lines_per_outlet_plan),
   ("TP per Outlet", k.tp_per_outlet, k.tp_per_outlet_plan),
   ("Secondary INR", k.sec_actual, k.sec_plan)]

/-- Source line 192 applied to the whole table: the "% Achieved" column. -/
def summaryPercent (k : KPIs) : List (String × Percent) :=
  (kpiTable k).map (fun e => (e.1, percentAchieved e.2.1 e.2.2))

/-- `groupby(field)[metric].sum()`: the per-group sums, keyed by the
distinct non-null group values in ascending key order (pandas groupby drops
null keys and sorts group keys). -/
def groupSum (ds : Dataset) (key : Row → Option String) (metric : Col) :
    List (String × Rat) :=
  (sortedUnique (ds.rows.map key)).map (fun g =>
    (g, ((ds.rows.filter (fun r => key r == some g)).map (fun r => r.val metric)).sum))

/-- Insert into a list of (key, value) pairs, descending by value. -/
def insertDesc (x : String × Rat) : List (String × Rat) → List (String × Rat)
  | [] => [x]
  | y :: ys => if decide (y.2 ≤ x.2) then x :: y :: ys else y :: insertDesc x ys

/-- `sort_values(ascending=False)`: sort by the summed value, descending. -/
def sortDesc : List (String × Rat) → List (String × Rat)
  | [] => []
  | x :: xs => insertDesc x (sortDesc xs)

/-- `head(n)`: the first `n` entries. -/
def headN (n : Nat) (l : List (String × Rat)) : List (String × Rat) := l.take n

/-- `tail(n)`: the last `min n (length l)` entries, in order. -/
def tailN (n : Nat) (l : List (String × Rat)) : List (String × Rat) :=
  l.drop (l.length - n)

/-- The four leaderboard extracts of source lines 199-206. -/
structure Leaderboards where
  top_1_ase : List (String × Rat)
  bottom_3_ase : List (String × Rat)
  top_1_territory : List (String × Rat)
  bottom_3_territory : List (String × Rat)
deriving DecidableEq, Repr

/-- Source lines 199-206: leaderboards over the FULL dataset `df` (the
script references `df`, not `filtered_df`, here). -/
def leaderboards (ds : Dataset) : Leaderboards :=
  let ase_stats := groupSum ds (·.ase) .secActual
  let territory_stats := groupSum ds (·.territory) .secActual
  { top_1_ase := headN 1 (sortDesc ase_stats)
    bottom_3_ase := tailN 3 (sortDesc ase_stats)
    top_1_territory := headN 1 (sortDesc territory_stats)
    bottom_3_territory := tailN 3 (sortDesc territory_stats) }

/-- The outcome of one evaluation pass: either the terminal "No data found
for your selection." stop (source lines 54-56), or the computed KPIs, flags,
diagnostic messages and leaderboards. -/
inductive PipelineResult where
  | noData : PipelineResult
  | report : KPIs → Flags → List Msg → Leaderboards → PipelineResult

/-- The whole pipeline for one dataset and selection: filter, stop when the
subset is empty (`st.stop()` at source line 56), otherwise aggregate,
flag, narrate (Tree A then Tree B) and rank. -/
def pipeline (ds : Dataset) (sel : Selection) : PipelineResult :=
  let rows := filteredRows ds sel
  if rows.isEmpty then .noData
  else
    let k := aggregate ds rows
    let f := mkFlags k
    .report k f (treeA f ++ treeB f) (leaderboards ds)

/-! ## Concrete datasets used to instantiate the theorems -/

/-- A one-row dataset with all numeric cells 0 (hierarchy D1 / A1 / T1). -/
def zeroRow : Row where
  dsm := some "D1"
  ase := some "A1"
  territory := some "T1"
  val := fun _ => 0

/-- Dataset holding just `zeroRow`, with every column present. -/
def zeroData : Dataset where
  rows := [zeroRow]
  hasCol := fun _ => true

/-- The single record of the spec's Scenario 1: ManpowerPlan 10,
ManpowerActual 8, RoutesPlan 100, RoutesActual 95, SecondaryPlan 50,
SecondaryActual 10; the other columns are absent from the schema. -/
def scenario1Row : Row where
  dsm := some "X"
  ase := some "A1"
  territory := some "T1"
  val := fun c => match c with
    | .manpowerPlan => 10
    | .manpowerActual => 8
    | .routesPlan => 100
    | .routesActual => 95
    | .secPlan => 50
    | .secActual => 10
    | _ => 0

/-- Scenario 1 dataset: one record, six columns present. -/
def scenario1 : Dataset where
  rows := [scenario1Row]
  hasCol := fun c => match c with
    | .manpowerPlan | .manpowerActual | .routesPlan | .routesActual
    | .secPlan | .secActual => true
    | _ => false

/-! ## C1: health-flag semantics -/

/-- Claim C1: the generic health flag equals `actual ≥ 0.9 × plan` whenever
the plan is nonzero and is false at plan 0 regardless of the actual (with
the boundary `actual = 0.9 × plan` flagged healthy); the manday flag equals
`mandays_actual ≥ mp_plan × 24` when `mp_plan > 0` and is false otherwise. -/
theorem c1_health_flag_semantics :
    (∀ actual plan : Rat, plan ≠ 0 →
      (is_good actual plan (9/10) = true ↔ actual ≥ (9/10) * plan))
    ∧ (∀ actual threshold : Rat, is_good actual 0 threshold = false)
    ∧ (∀ plan : Rat, plan ≠ 0 → is_good ((9/10) * plan) plan (9/10) = true)
    ∧ (∀ k : KPIs, k.mp_plan > 0 →
      ((mkFlags k).manday = true ↔ k.mandays_actual ≥ k.mp_plan * 24))
    ∧ (∀ k : KPIs, k.mp_plan ≤ 0 → (mkFlags k).manday = false) := by
  refine ⟨?_, ?_, ?_, ?_, ?_⟩
  · intro a p hp
    simp [is_good, hp]
  · intro a t
    simp [is_good]
  · intro p hp
    simp [is_good, hp]
  · intro k hk
    simp [mkFlags, hk]
  · intro k hk
    simp [mkFlags, not_lt.mpr hk]

/-- Witness for C1 at actual 9, plan 10: the flag holds since 9 ≥ 0.9·10. -/
theorem c1_health_flag_semantics_witness :
    is_good 9 10 (9/10) = true :=
  (c1_health_flag_semantics.1 9 10 (by norm_num)).mpr (by norm_num)

/-! ## C3: Tree A under a failing callage flag -/

/-- Claim C3: whenever the callage flag is false, Tree A emits exactly the
callage ERROR followed by one message picked by priority (routes INFO, else
manday INFO, else deployment ERROR); the right-hand side depends only on the
routes and manday flags, so productivity / secondary / lines / tp cannot
influence Tree A here. -/
theorem c3_treeA_callage_fail (f : Flags) (h : f.callage = false) :
    treeA f =
      [(Severity.error, "Unique Callage is below Threshold."),
       if f.routes then (Severity.info, "Routes are OK - Issue in Callage.")
       else if f.manday then
         (Severity.info, "Mandays fully utilized - May be poor execution.")
       else (Severity.error, "Check Mandays or Manpower Deployment.")] := by
  cases hr : f.routes <;> cases hm : f.manday <;> simp [treeA, h, hr, hm]

/-- Witness for C3: flags with callage failing and routes healthy produce
the callage ERROR followed by the routes INFO. -/
theorem c3_treeA_callage_fail_witness :
    treeA ⟨false, true, true, true, true, true, true⟩ =
      [(Severity.error, "Unique Callage is below Threshold."),
       (Severity.info, "Routes are OK - Issue in Callage.")] := by
  have h := c3_treeA_callage_fail ⟨false, true, true, true, true, true, true⟩ rfl
  simpa using h

/-! ## C4: empty filtered subset stops the pipeline -/

/-- Claim C4: when no record matches the non-"all" components of the
selection, the pipeline yields the terminal no-data result; no KPIs, flags
or diagnostic messages are produced (and the Lean function is total, so no
exception is possible). -/
theorem c4_empty_selection (ds : Dataset) (sel : Selection)
    (h : filteredRows ds sel = []) : pipeline ds sel = .noData := by
  simp [pipeline, h]

/-- Witness for C4: the empty dataset with the all-sentinel selection. -/
theorem c4_empty_selection_witness :
    pipeline ⟨[], fun _ => true⟩ ⟨"All DSMs", "All ASEs", "All Territories"⟩ =
      .noData :=
  c4_empty_selection _ _ rfl

/-! ## C5: percent-achieved column -/

/-- Claim C5: each "% Achieved" cell is `actual / plan * 100` when the plan
is nonzero, and at plan 0 the (total) computation yields one of the defined
division-by-zero placeholders instead of raising. -/
theorem c5_percent_achieved :
    (∀ actual plan : Rat, plan ≠ 0 →
      percentAchieved actual plan = .val (actual / plan * 100))
    ∧ (∀ actual : Rat, (percentAchieved actual 0).isPlaceholder = true)
    ∧ (∀ k : KPIs, summaryPercent k =
      (kpiTable k).map (fun e => (e.1, percentAchieved e.2.1 e.2.2))) := by
  refine ⟨?_, ?_, fun _ => rfl⟩
  · intro a p hp
    simp [percentAchieved, hp]
  · intro a
    by_cases h1 : a > 0
    · simp [percentAchieved, h1, Percent.isPlaceholder]
    · by_cases h2 : a < 0 <;>
        simp [percentAchieved, h1, h2, Percent.isPlaceholder]

/-- Witness for C5 at actual 50, plan 100. -/
theorem c5_percent_achieved_witness :
    percentAchieved 50 100 = .val (50 / 100 * 100) :=
  c5_percent_achieved.1 50 100 (by norm_num)

/-! ## C2: hierarchy candidate lists -/

/-- Claim C2, evaluated at the failing input: on a dataset whose one row is
D1 / A1 / T1, choosing DSM = "All DSMs" offers ASE candidate "A1", yet after
picking that ASE the code's territory candidate list is empty, because the
row filter compares the DSM column against the literal sentinel "All DSMs";
the spec's contract (an "all" choice imposes no restriction) yields ["T1"].
With a specific DSM the two agree. -/
theorem c2_territory_sentinel :
    ase_list zeroData "All DSMs" = ["A1"]
    ∧ territory_list zeroData "All DSMs" "A1" = []
    ∧ territory_list_spec zeroData "All DSMs" "A1" = ["T1"]
    ∧ territory_list zeroData "D1" "A1" = ["T1"]
    ∧ territory_list_spec zeroData "D1" "A1" = ["T1"] := by
  refine ⟨by decide, by decide, by decide, by decide, by decide⟩

/-! ## C6: fixed plan multipliers -/

/-- Claim C6: the plan-side KPIs obey `mandays_plan = mp_plan * 24`,
`callage_plan = routes_plan * 40` and `prod_plan = callage_plan * 0.8` on
every dataset; Scenario 1's single record with RoutesPlan 100 yields
callage_plan 4000, and any KPI set with ManpowerPlan 10 makes the manday
flag compare `mandays_actual` against 240. -/
theorem c6_plan_multipliers :
    (∀ (ds : Dataset) (rows : List Row),
      (aggregate ds rows).mandays_plan = (aggregate ds rows).mp_plan * 24
      ∧ (aggregate ds rows).callage_plan = (aggregate ds rows).routes_plan * 40
      ∧ (aggregate ds rows).prod_plan = (aggregate ds rows).callage_plan * (8/10))
    ∧ (aggregate scenario1 scenario1.rows).callage_plan = 4000
    ∧ (∀ k : KPIs, k.mp_plan = 10 →
      ((mkFlags k).manday = true ↔ k.mandays_actual ≥ 240)) := by
  refine ⟨fun ds rows => ⟨rfl, rfl, rfl⟩,
    by norm_num [aggregate, sum_or_zero, scenario1, scenario1Row], ?_⟩
  intro k hk
  simp [mkFlags, hk]
  norm_num

/-- Witness for C6: Scenario 1 has ManpowerPlan 10, so its manday flag is
the 240-comparison. -/
theorem c6_plan_multipliers_witness :
    ((mkFlags (aggregate scenario1 scenario1.rows)).manday = true ↔
      (aggregate scenario1 scenario1.rows).mandays_actual ≥ 240) :=
  c6_plan_multipliers.2.2 _
    (by norm_num [aggregate, sum_or_zero, scenario1, scenario1Row])

/-! ## C7: division guard on the per-outlet line metrics -/

/-- Claim C7: with UBO_actual = 0 the three derived line metrics are all 0
(no division is attempted); with UBO_actual > 0 they are the two quotients
and their mean. -/
theorem c7_lines_division_guard (ds : Dataset) (rows : List Row) :
    ((aggregate ds rows).ubo_actual = 0 →
      (aggregate ds rows).lines_per_outlet_actual = 0
      ∧ (aggregate ds rows).lines_per_db_actual = 0
      ∧ (aggregate ds rows).lines_per_average = 0)
    ∧ ((aggregate ds rows).ubo_actual > 0 →
      (aggregate ds rows).lines_per_outlet_actual
        = (aggregate ds rows).uls_retailer / (aggregate ds rows).ubo_actual
      ∧ (aggregate ds rows).lines_per_db_actual
        = (aggregate ds rows).uls_db / (aggregate ds rows).ubo_actual
      ∧ (aggregate ds rows).lines_per_average
        = ((aggregate ds rows).lines_per_outlet_actual
          + (aggregate ds rows).lines_per_db_actual) / 2) := by
  have hu : (aggregate ds rows).ubo_actual = sum_or_zero ds rows .uboActual := rfl
  have hlpo : (aggregate ds rows).lines_per_outlet_actual =
      if sum_or_zero ds rows .uboActual > 0
      then sum_or_zero ds rows .ulsRetailer / sum_or_zero ds rows .uboActual
      else 0 := rfl
  have hlpd : (aggregate ds rows).lines_per_db_actual =
      if sum_or_zero ds rows .uboActual > 0
      then sum_or_zero ds rows .ulsDB / sum_or_zero ds rows .uboActual
      else 0 := rfl
  have havg : (aggregate ds rows).lines_per_average =
      ((aggregate ds rows).lines_per_outlet_actual
        + (aggregate ds rows).lines_per_db_actual) / 2 := rfl
  constructor
  · intro h0
    rw [hu] at h0
    rw [havg, hlpo, hlpd, h0]
    norm_num
  · intro hpos
    rw [hu] at hpos
    refine ⟨?_, ?_, havg⟩
    · rw [hlpo, if_pos hpos]; rfl
    · rw [hlpd, if_pos hpos]; rfl

/-- Witness for C7: the all-zero one-row dataset has UBO_actual 0, so the
three line metrics are 0. -/
theorem c7_lines_division_guard_witness :
    (aggregate zeroData zeroData.rows).lines_per_outlet_actual = 0
    ∧ (aggregate zeroData zeroData.rows).lines_per_db_actual = 0
    ∧ (aggregate zeroData zeroData.rows).lines_per_average = 0 :=
  (c7_lines_division_guard zeroData zeroData.rows).1
    (by norm_num [aggregate, sum_or_zero, zeroData, zeroRow])

/-! ## C8: leaderboards -/

/-- Scenario 5, first group: ASE A1 with secondary actual 100. -/
def groupRowA : Row where
  dsm := some "D1"
  ase := some "A1"
  territory := some "T1"
  val := fun c => match c with
    | .secActual => 100
    | _ => 0

/-- Scenario 5, second group: ASE A2 with secondary actual 50. -/
def groupRowB : Row where
  dsm := some "D1"
  ase := some "A2"
  territory := some "T2"
  val := fun c => match c with
    | .secActual => 50
    | _ => 0

/-- Scenario 5 dataset: two ASE groups with secondary sums [100, 50]. -/
def twoGroups : Dataset where
  rows := [groupRowA, groupRowB]
  hasCol := fun _ => true

/-- Claim C8: every report produced by the pipeline carries the leaderboards
of the full dataset, independent of the selection; each board groups by its
dimension, sums Secondary INR Actual, sorts descending and takes the first 1
and the last 3; a bottom-3 over fewer than 3 groups is just all of them; and
on Scenario 5 the top-1 ASE is the 100-group and the bottom-3 holds both
groups. -/
theorem c8_leaderboard_global :
    (∀ (ds : Dataset) (sel : Selection) (k : KPIs) (f : Flags)
        (m : List Msg) (lb : Leaderboards),
      pipeline ds sel = .report k f m lb → lb = leaderboards ds)
    ∧ (∀ ds : Dataset,
      (leaderboards ds).top_1_ase
        = headN 1 (sortDesc (groupSum ds (·.ase) .secActual))
      ∧ (leaderboards ds).bottom_3_ase
        = tailN 3 (sortDesc (groupSum ds (·.ase) .secActual))
      ∧ (leaderboards ds).top_1_territory
        = headN 1 (sortDesc (groupSum ds (·.territory) .secActual))
      ∧ (leaderboards ds).bottom_3_territory
        = tailN 3 (sortDesc (groupSum ds (·.territory) .secActual)))
    ∧ (∀ l : List (String × Rat), l.length ≤ 3 → tailN 3 l = l)
    ∧ (leaderboards twoGroups).top_1_ase = [("A1", 100)]
    ∧ (leaderboards twoGroups).bottom_3_ase = [("A1", 100), ("A2", 50)] := by
  refine ⟨?_, fun ds => ⟨rfl, rfl, rfl, rfl⟩, ?_, ?_, ?_⟩
  · intro ds sel k f m lb h
    simp only [pipeline] at h
    split at h
    · simp at h
    · injection h with h1 h2 h3 h4
      exact h4.symm
  · intro l hl
    simp [tailN, Nat.sub_eq_zero_of_le hl]
  · norm_num +decide [leaderboards, groupSum, sortedUnique, sortLe, insertLe,
      strLe, sortDesc, insertDesc, headN, tailN, twoGroups, groupRowA,
      groupRowB, List.filter_cons, List.filter_nil]
  · norm_num +decide [leaderboards, groupSum, sortedUnique, sortLe, insertLe,
      strLe, sortDesc, insertDesc, headN, tailN, twoGroups, groupRowA,
      groupRowB, List.filter_cons, List.filter_nil]

/-- Witness for C8: a bottom-3 request on a 1-entry board returns that
entry with no padding. -/
theorem c8_leaderboard_global_witness :
    tailN 3 [("A1", (100 : Rat)), ("A2", 50)] = [("A1", 100), ("A2", 50)] :=
  c8_leaderboard_global.2.2.1 _ (by norm_num)

/-! ## C9: the lines plan is pegged to the DB-lines actual -/

/-- One record with UBO actual 1, ULS Retailer 5 and ULS DB 0. -/
def uboOnlyRow : Row where
  dsm := some "D1"
  ase := some "A1"
  territory := some "T1"
  val := fun c => match c with
    | .uboActual => 1
    | .ulsRetailer => 5
    | _ => 0

/-- Dataset holding just `uboOnlyRow`, every column present. -/
def uboOnly : Dataset where
  rows := [uboOnlyRow]
  hasCol := fun _ => true

/-- Claim C9: with UBO_actual > 0 the plan behind the lines flag equals
0.9 × lines_per_db_actual (a function of actuals); hence a zero summed
ULS DB forces that plan to 0 and the lines flag to false, however large
lines_per_outlet_actual is. -/
theorem c9_lines_plan_pegged (ds : Dataset) (rows : List Row) :
    ((aggregate ds rows).ubo_actual > 0 →
      (aggregate ds rows).lines_per_average_plan
        = (9/10) * (aggregate ds rows).lines_per_db_actual)
    ∧ ((aggregate ds rows).ubo_actual > 0 → (aggregate ds rows).uls_db = 0 →
      (aggregate ds rows).lines_per_average_plan = 0
      ∧ (mkFlags (aggregate ds rows)).lines = false) := by
  have hlpd : (aggregate ds rows).lines_per_db_actual =
      if (aggregate ds rows).ubo_actual > 0
      then (aggregate ds rows).uls_db / (aggregate ds rows).ubo_actual
      else 0 := rfl
  have hdbplan : (aggregate ds rows).uls_db_plan =
      if (aggregate ds rows).ubo_actual > 0
      then (aggregate ds rows).lines_per_db_actual else 0 := rfl
  have hlop : (aggregate ds rows).lines_per_outlet_plan =
      (aggregate ds rows).uls_db_plan * (8/10) := rfl
  have havgp : (aggregate ds rows).lines_per_average_plan =
      ((aggregate ds rows).lines_per_outlet_plan
        + (aggregate ds rows).uls_db_plan) / 2 := rfl
  constructor
  · intro hpos
    rw [havgp, hlop, hdbplan, if_pos hpos]
    ring
  · intro hpos h0
    have hl0 : (aggregate ds rows).lines_per_db_actual = 0 := by
      rw [hlpd, if_pos hpos, h0, zero_div]
    have hp0 : (aggregate ds rows).lines_per_average_plan = 0 := by
      rw [havgp, hlop, hdbplan, if_pos hpos, hl0]
      norm_num
    refine ⟨hp0, ?_⟩
    have hfl : (mkFlags (aggregate ds rows)).lines
        = is_good (aggregate ds rows).lines_per_average
            (aggregate ds rows).lines_per_average_plan (9/10) := rfl
    rw [hfl, hp0]
    simp [is_good]

/-- Witness for C9: UBO 1 and ULS DB 0 (with ULS Retailer 5) give a zero
lines plan and a false lines flag. -/
theorem c9_lines_plan_pegged_witness :
    (aggregate uboOnly uboOnly.rows).lines_per_average_plan = 0
    ∧ (mkFlags (aggregate uboOnly uboOnly.rows)).lines = false :=
  (c9_lines_plan_pegged uboOnly uboOnly.rows).2
    (by norm_num [aggregate, sum_or_zero, uboOnly, uboOnlyRow])
    (by norm_num [aggregate, sum_or_zero, uboOnly, uboOnlyRow])

/-! ## C10: the "Lines per DB" table row -/

/-- One record with UBO actual 1 and ULS DB 2. -/
def dbRow : Row where
  dsm := some "D1"
  ase := some "A1"
  territory := some "T1"
  val := fun c => match c with
    | .uboActual => 1
    | .ulsDB => 2
    | _ => 0

/-- Dataset holding just `dbRow`, every column present. -/
def dbData : Dataset where
  rows := [dbRow]
  hasCol := fun _ => true

/-- Claim C10: the overview's "Lines per DB" entry pairs
lines_per_db_actual with lines_per_outlet_plan; when UBO_actual > 0 that
displayed plan equals 0.8 × lines_per_db_actual, hence lies strictly below
the actual whenever the actual is positive. -/
theorem c10_lines_per_db_pairing (ds : Dataset) (rows : List Row) :
    (kpiTable (aggregate ds rows))[7]? =
      some ("Lines per DB", (aggregate ds rows).lines_per_db_actual,
        (aggregate ds rows).lines_per_outlet_plan)
    ∧ ((aggregate ds rows).ubo_actual > 0 →
      (aggregate ds rows).lines_per_outlet_plan
        = (8/10) * (aggregate ds rows).lines_per_db_actual)
    ∧ ((aggregate ds rows).ubo_actual > 0 →
      (aggregate ds rows).lines_per_db_actual > 0 →
      (aggregate ds rows).lines_per_outlet_plan
        < (aggregate ds rows).lines_per_db_actual) := by
  have hdbplan : (aggregate ds rows).uls_db_plan =
      if (aggregate ds rows).ubo_actual > 0
      then (aggregate ds rows).lines_per_db_actual else 0 := rfl
  have hlop : (aggregate ds rows).lines_per_outlet_plan =
      (aggregate ds rows).uls_db_plan * (8/10) := rfl
  refine ⟨rfl, ?_, ?_⟩
  · intro hpos
    rw [hlop, hdbplan, if_pos hpos]
    ring
  · intro hpos hlpd
    rw [hlop, hdbplan, if_pos hpos]
    linarith

/-- Witness for C10: UBO 1 and ULS DB 2 give a displayed plan 1.6 strictly
below the actual 2. -/
theorem c10_lines_per_db_pairing_witness :
    (aggregate dbData dbData.rows).lines_per_outlet_plan
      < (aggregate dbData dbData.rows).lines_per_db_actual :=
  (c10_lines_per_db_pairing dbData dbData.rows).2.2
    (by norm_num [aggregate, sum_or_zero, dbData, dbRow])
    (by norm_num [aggregate, sum_or_zero, dbData, dbRow])
